import Mathlib

/-!
Verification development for the `employee_onboarding` Odoo module
(`src/employee_onboarding/models/hr_employee.py`).

The Python code is shallowly embedded: pure string manipulation becomes
Lean string functions; configuration reads become a function over an
explicit parameter record; the LDAP directory is an oracle record
(`DirEnv`) supplying the server's response to each operation the
orchestrator performs, in program order; randomness (password
generation, shuffling) is an explicit draw record.  Chatter posts,
status writes and the unbind in the `finally` block are returned as an
explicit effect trace.

Python string primitives used by the module (`split`, `replace`,
`lower`, `strip`, `join`) are modelled by structurally recursive
functions over `List Char` so that all definitions evaluate inside the
kernel.
-/

namespace EmployeeOnboarding

/-- Python `s.split(sep)` for a single-character separator: empties are
preserved and the result always has `count(sep) + 1` pieces. -/
def pySplitChar (sep : Char) : List Char → List (List Char)
  | [] => [[]]
  | c :: cs =>
    let r := pySplitChar sep cs
    if c = sep then [] :: r
    else
      match r with
      | [] => [[c]]
      | x :: xs => (c :: x) :: xs

/-- Python `s.replace(old, new)` for a single-character `old`. -/
def pyReplaceChar (old : Char) (new : List Char) (s : List Char) : List Char :=
  (s.map (fun x => if x = old then new else [x])).flatten

/-- Python `sep.join(pieces)`. -/
def pyJoin (sep : List Char) : List (List Char) → List Char
  | [] => []
  | [x] => x
  | x :: y :: xs => x ++ sep ++ pyJoin sep (y :: xs)

/-- Python `s.lower()` (ASCII case mapping, as used by the module). -/
def pyLower (s : String) : String :=
  String.mk (s.toList.map Char.toLower)

/-- Python `s.strip()`. -/
def pyStrip (s : String) : String :=
  String.mk (((s.toList.dropWhile Char.isWhitespace).reverse.dropWhile
    Char.isWhitespace).reverse)

/-- Python `int(s)` restricted to the decimal-digit strings the module's
configurations use (Python raises `ValueError` on anything else). -/
def pyToNat? (s : String) : Option Nat :=
  let cs := s.toList
  if cs ≠ [] ∧ cs.all Char.isDigit then
    some (cs.foldl (fun n c => n * 10 + (c.toNat - 48)) 0)
  else none

/-- Python `s or default` for a string: the default replaces a falsy
(empty) string. -/
def pyOrStr (s : String) (d : String) : String :=
  if s = "" then d else s

/-- Python `v or default` for an optional string field (`False`/`None`
and the empty string are falsy). -/
def pyOrOpt (v : Option String) (d : String) : String :=
  match v with
  | some s => pyOrStr s d
  | none => d

/-- Python truthiness test `not v` for an optional string field. -/
def pyFalsyOpt (v : Option String) : Bool :=
  match v with
  | some s => s = ""
  | none => true

/-- Python `s.strip().split(None, 1)`: split on whitespace, at most one
split; empty/whitespace-only input gives the empty list
(`hr_employee.py` line 216). -/
def pySplitWs1 (s : String) : List String :=
  let cs := (pyStrip s).toList
  if cs = [] then []
  else
    let first := cs.takeWhile (fun c => ¬ c.isWhitespace)
    let rest := (cs.dropWhile (fun c => ¬ c.isWhitespace)).dropWhile Char.isWhitespace
    if rest = [] then [String.mk first] else [String.mk first, String.mk rest]

/-- `_ldap_escape_dn` (`hr_employee.py` lines 143-147): prefix each of
the characters `\ , # + ; " < > =` with a backslash; empty input is
returned unchanged. -/
def _ldap_escape_dn (s : String) : String :=
  if s = "" then s
  else String.mk ((s.toList.map
    (fun c => if c ∈ "\\,#+;\"<>=".toList then ['\\', c] else [c])).flatten)

/-- `_ldap_escape_filter` (`hr_employee.py` lines 150-154): sequential
single-character replacements, backslash first. -/
def _ldap_escape_filter (s : String) : String :=
  if s = "" then s
  else String.mk
    (pyReplaceChar '\x00' "\\00".toList
      (pyReplaceChar ')' "\\29".toList
        (pyReplaceChar '(' "\\28".toList
          (pyReplaceChar '*' "\\2a".toList
            (pyReplaceChar '\\' "\\5c".toList s.toList)))))

/-- Login derivation (`hr_employee.py` line 223):
`email.split('@')[0].lower().replace('.', '')`. -/
def adUsernameOfEmail (email : String) : String :=
  String.mk (pyReplaceChar '.' []
    ((pyLower (String.mk ((pySplitChar '@' email.toList).headD []))).toList))

/-- Base DN derivation (`hr_employee.py` line 115):
`','.join(f'DC={part}' for part in domain.split('.'))`. -/
def baseDnOf (domain : String) : String :=
  String.mk (pyJoin [',']
    ((pySplitChar '.' domain.toList).map (fun part => "DC=".toList ++ part)))

/-- The configuration source: `ir.config_parameter` values for the
`employee_onboarding.*` keys; `none` models an unset parameter (Odoo's
`get_param` then returns the supplied default). -/
structure Params where
  ad_server : Option String := none
  domain : Option String := none
  admin_user : Option String := none
  admin_password : Option String := none
  users_ou : Option String := none
  ou_path : Option String := none
  ldap_secure : Option String := none
  ldaps_port : Option String := none
  ldaps_validate_cert : Option String := none
  ldap_connect_timeout : Option String := none
  default_groups : Option String := none

/-- Resolved AD configuration: the dict returned by `_get_ad_config`. -/
structure AdConfig where
  ad_server : String
  domain : String
  admin_user : String
  admin_password : String
  base_dn : String
  users_ou : String
  ldap_secure : String
  ldaps_port : Nat
  ldaps_validate_cert : Bool
  connect_timeout : Nat
  default_groups : List String
deriving Repr, DecidableEq

/-- `users_ou` resolution (`hr_employee.py` lines 116-124): explicit
non-empty override wins; else a non-empty `ou_path` is split on `/`,
segments trimmed, empties dropped, and joined as `OU=` components in
reverse order in front of the base DN; else `CN=Users,<base_dn>`. -/
def resolveUsersOu (users_ou_param ou_path_param : Option String)
    (base_dn : String) : String :=
  let override :=
    match users_ou_param with
    | some s => if s = "" then none else some s
    | none => none
  match override with
  | some s => s
  | none =>
    let ou_path := pyStrip (ou_path_param.getD "")
    if ou_path = "" then "CN=Users," ++ base_dn
    else
      let ou_parts :=
        (((pySplitChar '/' ou_path.toList).map
          (fun p => (pyStrip (String.mk p)).toList)).filter (fun p => p ≠ []))
      String.mk (pyJoin [','] (ou_parts.reverse.map (fun p => "OU=".toList ++ p)))
        ++ "," ++ base_dn

/-- `_get_ad_config` (`hr_employee.py` lines 103-140).  `int(...)` is
modelled for numeric parameter strings (the only configurations in
scope; Python raises on non-numeric input). -/
def _get_ad_config (p : Params) : AdConfig :=
  let domain := p.domain.getD "employee.local"
  let admin_login := p.admin_user.getD "administrator"
  let admin_user :=
    if admin_login.toList.contains '@' then admin_login
    else admin_login ++ "@" ++ domain
  let base_dn := baseDnOf domain
  let users_ou := resolveUsersOu p.users_ou p.ou_path base_dn
  { ad_server := p.ad_server.getD "172.16.27.140"
    domain := domain
    admin_user := admin_user
    admin_password := p.admin_password.getD ""
    base_dn := base_dn
    users_ou := users_ou
    ldap_secure := pyLower (p.ldap_secure.getD "ldaps")
    ldaps_port := (pyToNat? (p.ldaps_port.getD "636")).getD 0
    ldaps_validate_cert :=
      pyLower (p.ldaps_validate_cert.getD "false") ∈ ["true", "1", "yes"]
    connect_timeout := (pyToNat? (p.ldap_connect_timeout.getD "10")).getD 0
    default_groups :=
      (((pySplitChar ',' (p.default_groups.getD "ABC").toList).map
        (fun g => pyStrip (String.mk g))).filter (fun g => g ≠ "")) }

/-- The server endpoint the orchestrator connects to
(`hr_employee.py` lines 234-249): `ldaps` mode uses implicit TLS on the
configured port; every other mode (plaintext, `starttls`, or anything
unrecognized) uses port 389 without implicit TLS. -/
structure ServerConn where
  host : String
  port : Nat
  useSsl : Bool
deriving Repr, DecidableEq

/-- Build the `ldap3.Server` endpoint from the resolved config. -/
def serverOf (cfg : AdConfig) : ServerConn :=
  if cfg.ldap_secure = "ldaps" then
    { host := cfg.ad_server, port := cfg.ldaps_port, useSsl := true }
  else
    { host := cfg.ad_server, port := 389, useSsl := false }

/-- The employee fields the flow reads (`name`, `work_email`,
`work_phone`); a falsy `name` is modelled as `""`, falsy optional fields
as `none` or `some ""`. -/
structure Employee where
  name : String
  work_email : Option String
  work_phone : Option String
deriving Repr, DecidableEq

/-- The slice of an ldap3 operation result the module inspects:
`conn.result.get('description')` and `conn.result.get('result')`. -/
structure LdapResult where
  description : String
  result : Nat
deriving Repr, DecidableEq

/-- A successful ldap3 operation result. -/
def ldapSuccess : LdapResult := ⟨"success", 0⟩

/-- The error returns of `_create_ad_user_ldap`, one constructor per
`return None, _(...), None` site (plus `exceptionMsg` for the
`except` handlers at lines 356-361 that stringify a raised exception). -/
inductive AdError where
  | ldap3Missing
  | adminPwdMissing
  | serverDomainMissing
  | workEmailMissing
  | userAlreadyExists (dn : String)
  | createFailed (res : LdapResult)
  | pwdRefusedPlaintext
  | setPasswordFailed (res : LdapResult)
  | enableFailed (res : LdapResult)
  | stillDisabled (uac : Nat)
  | couldNotVerify
  | exceptionMsg (msg : String)
deriving Repr, DecidableEq

/-- Outcome of one `_create_ad_user_ldap` call: the `(username, error,
password)` triple collapsed to its populated variant, plus `raised` for
a Python exception escaping the method (only possible before the `try`,
e.g. the IndexError at line 218 when the stripped name is empty). -/
inductive CreateResult where
  | ok (username password : String)
  | err (e : AdError)
  | raised (msg : String)
deriving Repr, DecidableEq

/-- What happened to a group during the AddingGroups loop
(lines 329-351); every variant continues to the next group. -/
inductive GroupLog where
  | added (g : String)
  | modifyFailed (g : String) (res : LdapResult)
  | notFound (g : String)
  | excWarn (g : String) (msg : String)
deriving Repr, DecidableEq

/-- Directory oracle: the server's response to each operation of one
provisioning attempt, in program order, plus the platform flag and the
generated password draw.  Function-valued fields answer per-group
queries. -/
structure DirEnv where
  ldap3Available : Bool := true
  password : String := "Xy7$abcdefgh"
  bindOk : Bool := true
  openOk : Bool := true
  startTlsOk : Bool := true
  excMsg : String := "LDAPException"
  searchEntries : List String := []
  addRes : LdapResult := ldapSuccess
  pwdRes : LdapResult := ldapSuccess
  platformWin32 : Bool := false
  netUserOk : Bool := true
  enableRes : LdapResult := ldapSuccess
  verifyEntries : List Nat := [512]
  groupDn : String → Option String := fun _ => none
  groupModRes : String → LdapResult := fun _ => ldapSuccess
  groupExc : String → Option String := fun _ => none

/-- Whether the `conn` local was assigned and whether `conn.bound`
holds when control reaches the `finally` block. -/
structure ConnState where
  created : Bool
  bound : Bool
deriving Repr, DecidableEq

/-- Result of the `try` body (lines 252-361) before the `finally`
block runs. -/
structure TryOut where
  result : CreateResult
  conn : ConnState
  addInvoked : Bool
  addAttrs : Option (List (String × String))
  groupLog : List GroupLog

/-- Effect trace of one `_create_ad_user_ldap` call. -/
structure CreateTrace where
  connCreated : Bool
  connBound : Bool
  unbindCalled : Bool
  addInvoked : Bool
  addAttrs : Option (List (String × String))
  groupLog : List GroupLog
deriving Repr, DecidableEq

/-- Trace for the return paths taken before `conn = None` (lines
206-249): no connection, no unbind, no add. -/
def noConnTrace : CreateTrace := ⟨false, false, false, false, none, []⟩

/-- The attribute dict of the `conn.add` call (lines 275-287);
`telephoneNumber` is `self.work_phone or ''`. -/
def adUserAttributes (first_name last_name display_name ad_username upn email : String)
    (work_phone : Option String) : List (String × String) :=
  [("givenName", first_name),
   ("sn", last_name),
   ("displayName", display_name),
   ("sAMAccountName", ad_username),
   ("userPrincipalName", upn),
   ("mail", email),
   ("telephoneNumber", pyOrOpt work_phone "")]

/-- The AddingGroups loop (lines 329-351): every per-group failure —
exception, group not found, or rejected modify — is logged and the loop
continues; nothing here changes the attempt's result. -/
def groupPhase (env : DirEnv) (cfg : AdConfig) : List GroupLog :=
  cfg.default_groups.map (fun g =>
    match env.groupExc g with
    | some m => .excWarn g m
    | none =>
      match env.groupDn g with
      | none => .notFound g
      | some gdn =>
        if (env.groupModRes gdn).description = "success" then .added g
        else .modifyFailed g (env.groupModRes gdn))

/-- The bound phase of the `try` body: existence check (lines 264-272),
add (274-289), set password with the win32 `net user` fallback
(291-310), enable (312-318), verify (320-327), groups (329-351), and
the success return (354). -/
def afterBind (env : DirEnv) (cfg : AdConfig)
    (first_name last_name display_name ad_username upn email : String)
    (work_phone : Option String) (password : String) : TryOut :=
  match env.searchEntries with
  | dn :: _ => ⟨.err (.userAlreadyExists dn), ⟨true, true⟩, false, none, []⟩
  | [] =>
    let attrs := adUserAttributes first_name last_name display_name ad_username
      upn email work_phone
    if env.addRes.description ≠ "success" then
      ⟨.err (.createFailed env.addRes), ⟨true, true⟩, true, some attrs, []⟩
    else
      let afterPwd : TryOut :=
        if env.enableRes.description ≠ "success" then
          ⟨.err (.enableFailed env.enableRes), ⟨true, true⟩, true, some attrs, []⟩
        else
          match env.verifyEntries with
          | [] => ⟨.err .couldNotVerify, ⟨true, true⟩, true, some attrs, []⟩
          | uac :: _ =>
            if uac &&& 2 ≠ 0 then
              ⟨.err (.stillDisabled uac), ⟨true, true⟩, true, some attrs, []⟩
            else
              ⟨.ok ad_username password, ⟨true, true⟩, true, some attrs,
                groupPhase env cfg⟩
      if env.pwdRes.description ≠ "success" then
        if env.pwdRes.result = 53 ∧ env.platformWin32 then
          if env.netUserOk then afterPwd
          else ⟨.err .pwdRefusedPlaintext, ⟨true, true⟩, true, some attrs, []⟩
        else ⟨.err (.setPasswordFailed env.pwdRes), ⟨true, true⟩, true, some attrs, []⟩
      else afterPwd

/-- The `try` body (lines 252-361).  Non-starttls modes bind inside the
`Connection` constructor (`auto_bind=True`): a bind failure raises
before `conn` is assigned.  In starttls mode the constructor assigns
`conn` without network traffic; a failure of `open`, `start_tls`, or
`bind` leaves the connection unbound and surfaces as a caught
`LDAPException` with the library's message. -/
def adTryBody (env : DirEnv) (cfg : AdConfig)
    (first_name last_name display_name ad_username upn email : String)
    (work_phone : Option String) (password : String) : TryOut :=
  if cfg.ldap_secure ≠ "starttls" then
    if env.bindOk then
      afterBind env cfg first_name last_name display_name ad_username upn email
        work_phone password
    else ⟨.err (.exceptionMsg env.excMsg), ⟨false, false⟩, false, none, []⟩
  else
    if ¬ env.openOk then
      ⟨.err (.exceptionMsg env.excMsg), ⟨true, false⟩, false, none, []⟩
    else if ¬ env.startTlsOk then
      ⟨.err (.exceptionMsg env.excMsg), ⟨true, false⟩, false, none, []⟩
    else if ¬ env.bindOk then
      ⟨.err (.exceptionMsg env.excMsg), ⟨true, false⟩, false, none, []⟩
    else
      afterBind env cfg first_name last_name display_name ad_username upn email
        work_phone password

/-- `_create_ad_user_ldap` (lines 195-364).  The returns before the
`try` (ldap3 missing, config incomplete, empty email) take
`noConnTrace`; an empty stripped name raises IndexError at line 218,
escaping the method.  The `finally` block (lines 362-364) runs
`conn.unbind()` exactly when `conn` was assigned and is bound. -/
def _create_ad_user_ldap (emp : Employee) (p : Params) (env : DirEnv) :
    CreateResult × CreateTrace :=
  if ¬ env.ldap3Available then (.err .ldap3Missing, noConnTrace)
  else
    let cfg := _get_ad_config p
    if cfg.admin_password = "" then (.err .adminPwdMissing, noConnTrace)
    else if cfg.ad_server = "" ∨ cfg.domain = "" then
      (.err .serverDomainMissing, noConnTrace)
    else
      match pySplitWs1 emp.name with
      | [] => (.raised "IndexError: list index out of range", noConnTrace)
      | first_name :: restParts =>
        let last_name :=
          match restParts with
          | r :: _ => r
          | [] => pyOrStr first_name "Unknown"
        let email := pyStrip (pyOrOpt emp.work_email "")
        if email = "" then (.err .workEmailMissing, noConnTrace)
        else
          let ad_username := adUsernameOfEmail email
          let upn := ad_username ++ "@" ++ cfg.domain
          let display_name := first_name ++ " " ++ last_name
          let t := adTryBody env cfg first_name last_name display_name ad_username
            upn email emp.work_phone env.password
          (t.result,
           ⟨t.conn.created, t.conn.bound, t.conn.created && t.conn.bound,
            t.addInvoked, t.addAttrs, t.groupLog⟩)

/-- `_validate_employee_for_ad` (lines 91-101). -/
def _validate_employee_for_ad (emp : Employee) : Option String :=
  if pyFalsyOpt emp.work_email then
    some "Work email is required to create an Active Directory account."
  else if emp.name = "" then some "Employee name is required."
  else none

/-- Employee record state touched by the flow. -/
structure EmpState where
  ad_username : Option String
  ad_sync_status : String
deriving Repr, DecidableEq

/-- `_update_employee_after_ad_creation` (lines 366-372):
`ad_username or self.ad_username`, status forced to `success`. -/
def _update_employee_after_ad_creation (st : EmpState) (ad_username : String) :
    EmpState :=
  ⟨if ad_username = "" then st.ad_username else some ad_username, "success"⟩

/-- One chatter post: the body string plus whether the credentials
email dispatch was attempted (the guard of line 416). -/
structure LogEffect where
  body : String
  emailAttempted : Bool
deriving Repr, DecidableEq

/-- The success chatter body (lines 418-423): built only from the
login and the work email, each replaced by `N/A` when falsy. -/
def successBody (ad_username work_email : Option String) : String :=
  "Active Directory account created successfully.<br/>Username: <strong>"
  ++ pyOrOpt ad_username "N/A"
  ++ "</strong><br/>Credentials have been sent to the employee's email (<strong>"
  ++ pyOrOpt work_email "N/A" ++ "</strong>)."

/-- `_log_ad_onboarding_result` (lines 407-431): posts exactly one
chatter message; on success it first attempts the credentials email
when both password and login are truthy. -/
def _log_ad_onboarding_result (emp : Employee) (success : Bool)
    (message ad_username initial_password : Option String) : LogEffect :=
  if success then
    ⟨successBody ad_username emp.work_email,
     !(pyFalsyOpt initial_password) && !(pyFalsyOpt ad_username)⟩
  else
    ⟨"Active Directory account creation failed: " ++ pyOrOpt message "Unknown error",
     false⟩

/-- Rendering of `conn.result` inside `_("...: %s", conn.result)`
messages, abbreviated to the two fields the module reads (the real dict
repr carries further diagnostic keys). -/
def ldapResultStr (r : LdapResult) : String :=
  "result " ++ toString r.result ++ " " ++ r.description

/-- The message string each `AdError` return carries (the second
component of the Python triple). -/
def adErrorMessage : AdError → String
  | .ldap3Missing => "Module 'ldap3' is not installed. Install it with: pip install ldap3"
  | .adminPwdMissing => "AD admin password not configured (employee_onboarding.admin_password)."
  | .serverDomainMissing => "AD server and domain must be set (employee_onboarding.ad_server, .domain)."
  | .workEmailMissing => "Work email is required for AD account."
  | .userAlreadyExists dn => "User already exists: " ++ dn
  | .createFailed r => "Create user failed: " ++ ldapResultStr r
  | .pwdRefusedPlaintext => "AD refused password set over LDAP. Enable LDAPS/StartTLS on the DC."
  | .setPasswordFailed r => "Set password failed: " ++ ldapResultStr r
  | .enableFailed r => "Enable account failed: " ++ ldapResultStr r
  | .stillDisabled uac => "User created but still disabled (userAccountControl=" ++ toString uac ++ ")"
  | .couldNotVerify => "Could not verify user after creation."
  | .exceptionMsg m => m

/-- `_onboarding_activity_create_ad_done` (lines 57-89) for one
employee: validate, create, then update state and post exactly one
chatter entry.  A validation failure (lines 65-68) posts the failure
message and moves to the next employee without writing
`ad_sync_status`; an error return or an escaped exception writes
`ad_sync_status = error` before posting. -/
def _onboarding_activity_create_ad_done (emp : Employee) (st : EmpState)
    (p : Params) (env : DirEnv) : EmpState × List LogEffect :=
  match _validate_employee_for_ad emp with
  | some errMsg =>
    (st, [_log_ad_onboarding_result emp false (some errMsg) none none])
  | none =>
    match (_create_ad_user_ldap emp p env).1 with
    | .err e =>
      ({ st with ad_sync_status := "error" },
       [_log_ad_onboarding_result emp false (some (adErrorMessage e)) none none])
    | .raised m =>
      ({ st with ad_sync_status := "error" },
       [_log_ad_onboarding_result emp false (some m) none none])
    | .ok u pwd =>
      (_update_employee_after_ad_creation st u,
       [_log_ad_onboarding_result emp true none (some u) (some pwd)])

/-- `string.ascii_uppercase`. -/
def asciiUppercaseChars : List Char := "ABCDEFGHIJKLMNOPQRSTUVWXYZ".toList

/-- `string.ascii_lowercase`. -/
def asciiLowercaseChars : List Char := "abcdefghijklmnopqrstuvwxyz".toList

/-- `string.digits`. -/
def pyDigitChars : List Char := "0123456789".toList

/-- The fixed symbol set `'!@#$%'` of `_generate_ad_password`. -/
def pwSymbolChars : List Char := "!@#$%".toList

/-- `chars = string.ascii_letters + string.digits + '!@#$%'`
(line 184). -/
def pwAlphabet : List Char :=
  asciiLowercaseChars ++ asciiUppercaseChars ++ pyDigitChars ++ pwSymbolChars

/-- One draw of the random source inside `_generate_ad_password`
(lines 185-191): the four mandatory `random.choice` picks and the
`random.choices(chars, k=random.randint(8, 12))` tail. -/
structure PwDraw where
  up : Char
  low : Char
  dig : Char
  sym : Char
  extras : List Char

/-- The draws `random.choice`/`random.choices`/`random.randint` can
actually produce: each pick from its set, 8-12 extra characters from
the union alphabet. -/
def validPwDraw (d : PwDraw) : Prop :=
  d.up ∈ asciiUppercaseChars ∧ d.low ∈ asciiLowercaseChars ∧
  d.dig ∈ pyDigitChars ∧ d.sym ∈ pwSymbolChars ∧
  8 ≤ d.extras.length ∧ d.extras.length ≤ 12 ∧
  ∀ c ∈ d.extras, c ∈ pwAlphabet

instance (d : PwDraw) : Decidable (validPwDraw d) := by
  unfold validPwDraw; infer_instance

/-- The character list `pwd` before `random.shuffle(pwd)` (line 192). -/
def genPasswordChars (d : PwDraw) : List Char :=
  [d.up, d.low, d.dig, d.sym] ++ d.extras

/-- `_generate_ad_password` (lines 181-193), with the random draw and
the shuffle made explicit: `random.shuffle` is any permutation of the
assembled list. -/
def _generate_ad_password (d : PwDraw) (shuffle : List Char → List Char) : String :=
  String.mk (shuffle (genPasswordChars d))

end EmployeeOnboarding

namespace EmployeeOnboarding

/-- The employee fixture the scenario theorems run on: a two-word name
and a dotted work email. -/
def empC : Employee := ⟨"John Doe", some "john.doe@corp.com", some "555-0100"⟩

/-- Minimal complete configuration: only the admin password (the one
parameter without a usable default) is set. -/
def pC : Params := { admin_password := some "s3cret" }

/-- The all-success directory environment. -/
def envOK : DirEnv := {}

/-- C7: the success chatter body is identical for any two runs that
differ only in the generated password — it is built only from the login
and the employee's work email; the password never reaches the persisted
chatter record. -/
theorem C7_password_never_in_chatter (emp : Employee) (u p1 p2 : Option String) :
    (_log_ad_onboarding_result emp true none u p1).body =
      (_log_ad_onboarding_result emp true none u p2).body ∧
    (_log_ad_onboarding_result emp true none u p1).body =
      successBody u emp.work_email := by
  constructor <;> rfl

/-- C8: login derivation lower-cases the email local part and removes
dots; the base DN comma-joins `DC=` components of the dotted domain;
`users_ou` resolution prefers a non-empty explicit override, then the
reversed slash-separated OU path in front of the base DN, then
`CN=Users,<base_dn>`. -/
theorem C8_attribute_derivation :
    adUsernameOfEmail "john.doe@corp.com" = "johndoe" ∧
    baseDnOf "corp.local" = "DC=corp,DC=local" ∧
    (∀ p : Params, (_get_ad_config p).users_ou =
      resolveUsersOu p.users_ou p.ou_path (baseDnOf (p.domain.getD "employee.local"))) ∧
    (∀ (o : String) (ou_path : Option String) (base : String), o ≠ "" →
      resolveUsersOu (some o) ou_path base = o) ∧
    (_get_ad_config { domain := some "corp.local", ou_path := some "Employees/NewHires" }).users_ou
      = "OU=NewHires,OU=Employees,DC=corp,DC=local" ∧
    (_get_ad_config { domain := some "corp.local" }).users_ou
      = "CN=Users,DC=corp,DC=local" := by
  refine ⟨by decide, by decide, fun p => rfl, ?_, by decide, by decide⟩
  intro o ou_path base ho
  simp [resolveUsersOu, ho]

/-- C8 witness: the override branch at a concrete configuration. -/
theorem C8_attribute_derivation_witness :
    resolveUsersOu (some "OU=Staff,DC=corp,DC=local") (some "Employees") "DC=corp,DC=local"
      = "OU=Staff,DC=corp,DC=local" :=
  C8_attribute_derivation.2.2.2.1 "OU=Staff,DC=corp,DC=local" (some "Employees")
    "DC=corp,DC=local" (by decide)

/-- C10: the add request's attribute set always contains a
`telephoneNumber` key whose value is `work_phone or ''` — the empty
string, not an omitted attribute, when the employee has no work
phone. -/
theorem C10_telephone_always_sent (wp : Option String) :
    (_create_ad_user_ldap ⟨"John Doe", some "john.doe@corp.com", wp⟩ pC envOK).2.addAttrs
      = some (adUserAttributes "John" "Doe" "John Doe" "johndoe"
          "johndoe@employee.local" "john.doe@corp.com" wp) ∧
    (∀ fn ln dn au up em : String,
      (adUserAttributes fn ln dn au up em wp).lookup "telephoneNumber"
        = some (pyOrOpt wp "")) ∧
    pyOrOpt none "" = "" := by
  refine ⟨rfl, fun fn ln dn au up em => rfl, rfl⟩

/-- C9: for every draw the random source can produce and every shuffle
permutation, the generated password has length between 12 and 16 and
contains at least one uppercase letter, one lowercase letter, one
digit, and one symbol from the fixed set. -/
theorem C9_password_complexity (d : PwDraw) (shuffle : List Char → List Char)
    (hd : validPwDraw d)
    (hp : (shuffle (genPasswordChars d)).Perm (genPasswordChars d)) :
    12 ≤ (_generate_ad_password d shuffle).toList.length ∧
    (_generate_ad_password d shuffle).toList.length ≤ 16 ∧
    (∃ c ∈ (_generate_ad_password d shuffle).toList, c ∈ asciiUppercaseChars) ∧
    (∃ c ∈ (_generate_ad_password d shuffle).toList, c ∈ asciiLowercaseChars) ∧
    (∃ c ∈ (_generate_ad_password d shuffle).toList, c ∈ pyDigitChars) ∧
    (∃ c ∈ (_generate_ad_password d shuffle).toList, c ∈ pwSymbolChars) := by
  obtain ⟨h1, h2, h3, h4, h5, h6, h7⟩ := hd
  have hout : (_generate_ad_password d shuffle).toList = shuffle (genPasswordChars d) := rfl
  have hlen : (shuffle (genPasswordChars d)).length = 4 + d.extras.length := by
    rw [hp.length_eq]; simp [genPasswordChars]; omega
  have hup : d.up ∈ shuffle (genPasswordChars d) := by
    rw [hp.mem_iff]; simp [genPasswordChars]
  have hlow : d.low ∈ shuffle (genPasswordChars d) := by
    rw [hp.mem_iff]; simp [genPasswordChars]
  have hdig : d.dig ∈ shuffle (genPasswordChars d) := by
    rw [hp.mem_iff]; simp [genPasswordChars]
  have hsym : d.sym ∈ shuffle (genPasswordChars d) := by
    rw [hp.mem_iff]; simp [genPasswordChars]
  rw [hout]
  exact ⟨by omega, by omega, ⟨d.up, hup, h1⟩, ⟨d.low, hlow, h2⟩,
    ⟨d.dig, hdig, h3⟩, ⟨d.sym, hsym, h4⟩⟩

/-- C9 witness: a concrete valid draw with the identity shuffle. -/
theorem C9_password_complexity_witness :
    validPwDraw ⟨'A', 'a', '0', '!', "bcdefghi".toList⟩ ∧
    12 ≤ (_generate_ad_password ⟨'A', 'a', '0', '!', "bcdefghi".toList⟩ id).toList.length := by
  refine ⟨by decide, ?_⟩
  exact (C9_password_complexity ⟨'A', 'a', '0', '!', "bcdefghi".toList⟩ id
    (by decide) (List.Perm.refl _)).1

/-- C3 counterexample: with the TLS mode parameter set to `BOGUS`, the
resolved mode is the unrecognized string `bogus`, yet the connection
uses plaintext port 389, not implicit TLS on 636 as the claim
states. -/
theorem C3_counterexample :
    (_get_ad_config { ldap_secure := some "BOGUS" }).ldap_secure = "bogus" ∧
    serverOf (_get_ad_config { ldap_secure := some "BOGUS" })
      = ⟨"172.16.27.140", 389, false⟩ ∧
    (serverOf (_get_ad_config { ldap_secure := some "BOGUS" })).port ≠ 636 ∧
    (serverOf (_get_ad_config { ldap_secure := some "BOGUS" })).useSsl = false := by
  refine ⟨by decide, by decide, by decide, by decide⟩

/-- C3 amended: the configured TLS mode is lower-cased; an unset mode
resolves to `ldaps` and the connection then uses implicit TLS on the
configured `ldaps_port` (636 when that too is unset); any resolved mode
other than `ldaps` — plaintext, `starttls`, or unrecognized — uses
plaintext port 389 without implicit TLS. -/
theorem C3_amended_tls_resolution :
    (∀ p : Params, (_get_ad_config p).ldap_secure = pyLower (p.ldap_secure.getD "ldaps")) ∧
    (∀ p : Params, p.ldap_secure = none →
      (_get_ad_config p).ldap_secure = "ldaps" ∧
      serverOf (_get_ad_config p)
        = ⟨(_get_ad_config p).ad_server, (_get_ad_config p).ldaps_port, true⟩) ∧
    (∀ p : Params, p.ldaps_port = none → (_get_ad_config p).ldaps_port = 636) ∧
    (∀ p : Params, (_get_ad_config p).ldap_secure ≠ "ldaps" →
      serverOf (_get_ad_config p) = ⟨(_get_ad_config p).ad_server, 389, false⟩) := by
  refine ⟨fun p => rfl, ?_, ?_, ?_⟩
  · intro p hp
    have hm : (_get_ad_config p).ldap_secure = "ldaps" := by
      show pyLower (p.ldap_secure.getD "ldaps") = "ldaps"
      rw [hp]; decide
    exact ⟨hm, by simp [serverOf, hm]⟩
  · intro p hp
    show (pyToNat? (p.ldaps_port.getD "636")).getD 0 = 636
    rw [hp]; decide
  · intro p hp
    simp [serverOf, hp]

/-- C3 amended witness: the default configuration resolves to `ldaps`
on port 636, and the `BOGUS` configuration to plaintext port 389. -/
theorem C3_amended_tls_resolution_witness :
    serverOf (_get_ad_config {}) = ⟨"172.16.27.140", 636, true⟩ ∧
    serverOf (_get_ad_config { ldap_secure := some "BOGUS" })
      = ⟨"172.16.27.140", 389, false⟩ := by
  constructor
  · have h1 := (C3_amended_tls_resolution.2.1 {} rfl).2
    have h2 := C3_amended_tls_resolution.2.2.1 {} rfl
    rw [h1, h2]; decide
  · exact C3_amended_tls_resolution.2.2.2 { ldap_secure := some "BOGUS" } (by decide)

/-- C5: in every directory environment in which the bind succeeded and
the existence-check search returns at least one entry — whatever the
server would have answered to the later operations — the attempt ends
with the already-exists outcome carrying the first entry's
distinguished name, the `conn.add` call is never made, and the session
is unbound exactly once on the way out. -/
theorem C5_existing_account_short_circuit (dn : String) (rest : List String)
    (pw excm : String) (oo so : Bool) (ar pr : LdapResult) (p32 nu : Bool)
    (er : LdapResult) (ve : List Nat) (gd : String → Option String)
    (gm : String → LdapResult) (ge : String → Option String) :
    _create_ad_user_ldap empC pC
      ⟨true, pw, true, oo, so, excm, dn :: rest, ar, pr, p32, nu, er, ve, gd, gm, ge⟩
      = (.err (.userAlreadyExists dn), ⟨true, true, true, false, none, []⟩) := rfl

/-- Two-group configuration for the group-membership scenarios. -/
def pG : Params := { admin_password := some "s3cret", default_groups := some "GroupA,GroupB" }

/-- C6: once create, password-set, enable and verify have succeeded,
the result is `Created` with the login and the generated password no
matter how group resolution, the member-add modify, or a per-group
exception turn out, and every configured group is still processed and
logged. -/
theorem C6_group_failures_nonfatal (gdn : String → Option String)
    (gmod : String → LdapResult) (gexc : String → Option String) :
    (_create_ad_user_ldap empC pG
      { envOK with groupDn := gdn, groupModRes := gmod, groupExc := gexc }).1
      = .ok "johndoe" "Xy7$abcdefgh" ∧
    (_create_ad_user_ldap empC pG
      { envOK with groupDn := gdn, groupModRes := gmod, groupExc := gexc }).2.groupLog.length
      = 2 := by
  constructor
  · rfl
  · show (groupPhase _ (_get_ad_config pG)).length = 2
    simp [groupPhase]
    rfl

/-- The resolved configuration for the `pC` fixture, as a literal. -/
def cfgC : AdConfig :=
  ⟨"172.16.27.140", "employee.local", "administrator@employee.local", "s3cret",
   "DC=employee,DC=local", "CN=Users,DC=employee,DC=local", "ldaps", 636, false,
   10, ["ABC"]⟩

theorem cfgC_eq : _get_ad_config pC = cfgC := by decide

/-- The password-set failure environment of the C2 scenario. -/
def env53 : DirEnv :=
  { envOK with pwdRes := ⟨"insufficientAccessRights", 53⟩, platformWin32 := false }

/-- C2 counterexample: create succeeds, the password-set modify fails
with result code 53, the platform offers no fallback — the attempt ends
with the generic raw-description message (`Set password failed: ...`),
not the plaintext-channel message the claim states, and the two
messages differ. -/
theorem C2_counterexample :
    (_create_ad_user_ldap empC pC env53).1
      = .err (.setPasswordFailed ⟨"insufficientAccessRights", 53⟩) ∧
    (_create_ad_user_ldap empC pC env53).1 ≠ .err .pwdRefusedPlaintext ∧
    adErrorMessage (.setPasswordFailed ⟨"insufficientAccessRights", 53⟩)
      ≠ adErrorMessage .pwdRefusedPlaintext := by
  refine ⟨by decide, by decide, by decide⟩

/-- C2 amended: when create succeeds and the password-set modify fails
with result code 53, a platform without the command-line fallback ends
the attempt with the generic set-password-failed message carrying the
raw result (the session still unbound-on-exit); the plaintext-channel
message arises only on the fallback-capable platform when the fallback
itself fails. -/
theorem C2_amended_password_set_failure (desc : String) (hd : desc ≠ "success")
    (pw excm : String) (oo so : Bool) (er : LdapResult) (ve : List Nat)
    (nu : Bool) (gd : String → Option String) (gm : String → LdapResult)
    (ge : String → Option String) :
    (_create_ad_user_ldap empC pC
      ⟨true, pw, true, oo, so, excm, [], ldapSuccess, ⟨desc, 53⟩, false, nu, er,
        ve, gd, gm, ge⟩).1
      = .err (.setPasswordFailed ⟨desc, 53⟩) ∧
    (_create_ad_user_ldap empC pC
      ⟨true, pw, true, oo, so, excm, [], ldapSuccess, ⟨desc, 53⟩, false, nu, er,
        ve, gd, gm, ge⟩).2.unbindCalled = true ∧
    (_create_ad_user_ldap empC pC
      ⟨true, pw, true, oo, so, excm, [], ldapSuccess, ⟨desc, 53⟩, true, false, er,
        ve, gd, gm, ge⟩).1
      = .err .pwdRefusedPlaintext := by
  have hsplit : pySplitWs1 "John Doe" = ["John", "Doe"] := by decide
  have hmail : pyStrip (pyOrOpt (some "john.doe@corp.com") "") = "john.doe@corp.com" := by
    decide
  refine ⟨?_, ?_, ?_⟩ <;>
    simp [_create_ad_user_ldap, adTryBody, afterBind, cfgC_eq, cfgC, empC,
      hsplit, hmail, hd, ldapSuccess]

/-- C2 amended witness: the concrete insufficient-rights result on a
platform without the fallback. -/
theorem C2_amended_password_set_failure_witness :
    (_create_ad_user_ldap empC pC
      ⟨true, "Xy7$abcdefgh", true, true, true, "LDAPException", [], ldapSuccess,
        ⟨"insufficientAccessRights", 53⟩, false, true, ldapSuccess, [512],
        fun _ => none, fun _ => ldapSuccess, fun _ => none⟩).1
      = .err (.setPasswordFailed ⟨"insufficientAccessRights", 53⟩) :=
  (C2_amended_password_set_failure "insufficientAccessRights" (by decide)
    "Xy7$abcdefgh" "LDAPException" true true ldapSuccess [512] true
    (fun _ => none) (fun _ => ldapSuccess) (fun _ => none)).1

/-- Starttls configuration used by the C4 counterexample. -/
def pStartTls : Params :=
  { admin_password := some "s3cret", ldap_secure := some "starttls" }

/-- C4 counterexample: in starttls mode with a failing bind, the
connection object exists and was opened but never bound, the attempt
ends in failure, and `unbind` is not called — the `finally` block skips
closing because `conn.bound` is false. -/
theorem C4_counterexample :
    (_create_ad_user_ldap empC pStartTls { envOK with bindOk := false }).2.connCreated = true ∧
    (_create_ad_user_ldap empC pStartTls { envOK with bindOk := false }).2.connBound = false ∧
    (_create_ad_user_ldap empC pStartTls { envOK with bindOk := false }).2.unbindCalled = false ∧
    (_create_ad_user_ldap empC pStartTls { envOK with bindOk := false }).1
      = .err (.exceptionMsg "LDAPException") := by
  refine ⟨by decide, by decide, by decide, by decide⟩

/-- Every branch of the bound phase exits with a created, bound
connection. -/
theorem afterBind_conn (env : DirEnv) (cfg : AdConfig)
    (fn ln dn au up em : String) (wp : Option String) (pw : String) :
    (afterBind env cfg fn ln dn au up em wp pw).conn = ⟨true, true⟩ := by
  unfold afterBind
  rcases env.searchEntries with _ | ⟨d, rest⟩
  · simp only
    repeat' split
    all_goals rfl
  · rfl

/-- A successful result can only come from the bound phase, whose exit
connection state is created-and-bound. -/
theorem adTryBody_ok_conn (env : DirEnv) (cfg : AdConfig)
    (fn ln dn au up em : String) (wp : Option String) (pw : String)
    (u p' : String)
    (h : (adTryBody env cfg fn ln dn au up em wp pw).result = .ok u p') :
    (adTryBody env cfg fn ln dn au up em wp pw).conn = ⟨true, true⟩ := by
  revert h
  unfold adTryBody
  repeat' split
  all_goals intro h
  all_goals first
    | exact afterBind_conn env cfg fn ln dn au up em wp pw
    | simp at h

/-- C4 amended: `unbind` runs exactly when the connection was assigned
and is bound when control reaches the `finally` block; in particular it
always runs on the success path, but it is skipped on exit paths where
the connection was never successfully bound. -/
theorem C4_amended_unbind_iff_bound (emp : Employee) (p : Params) (env : DirEnv) :
    (_create_ad_user_ldap emp p env).2.unbindCalled =
      ((_create_ad_user_ldap emp p env).2.connCreated &&
        (_create_ad_user_ldap emp p env).2.connBound) ∧
    (∀ u pwd, (_create_ad_user_ldap emp p env).1 = .ok u pwd →
      (_create_ad_user_ldap emp p env).2.unbindCalled = true) := by
  unfold _create_ad_user_ldap
  simp only []
  repeat' split
  all_goals refine ⟨rfl, ?_⟩
  all_goals intro u pwd h
  all_goals first
    | (have hc := adTryBody_ok_conn _ _ _ _ _ _ _ _ _ _ _ _ h
       simp [hc])
    | simp at h

/-- C4 amended witness: on the all-success environment the session is
unbound. -/
theorem C4_amended_unbind_iff_bound_witness :
    (_create_ad_user_ldap empC pC envOK).2.unbindCalled = true :=
  (C4_amended_unbind_iff_bound empC pC envOK).2 "johndoe" "Xy7$abcdefgh" (by decide)

/-- C1 counterexample: an employee with no work email fails validation;
exactly one failure entry is posted but the sync status stays
`pending` — it is not set to `error` as the claim states. -/
theorem C1_counterexample :
    (_onboarding_activity_create_ad_done ⟨"John Doe", none, none⟩ ⟨none, "pending"⟩
      pC envOK).1.ad_sync_status = "pending" ∧
    (_onboarding_activity_create_ad_done ⟨"John Doe", none, none⟩ ⟨none, "pending"⟩
      pC envOK).1.ad_sync_status ≠ "error" ∧
    (_onboarding_activity_create_ad_done ⟨"John Doe", none, none⟩ ⟨none, "pending"⟩
      pC envOK).2.length = 1 := by
  refine ⟨by decide, by decide, by decide⟩

/-- C1 amended: every attempt posts exactly one audit/chatter entry; a
terminal failure after validation (an error return or an escaped
exception) sets the sync status to `error`; a validation failure posts
its single audit entry but leaves the employee state — including the
sync status — unchanged. -/
theorem C1_amended_failure_reporting (emp : Employee) (st : EmpState)
    (p : Params) (env : DirEnv) :
    (_onboarding_activity_create_ad_done emp st p env).2.length = 1 ∧
    ((_validate_employee_for_ad emp).isSome →
      (_onboarding_activity_create_ad_done emp st p env).1 = st) ∧
    (_validate_employee_for_ad emp = none →
      ∀ e, (_create_ad_user_ldap emp p env).1 = .err e →
        (_onboarding_activity_create_ad_done emp st p env).1.ad_sync_status = "error") ∧
    (_validate_employee_for_ad emp = none →
      ∀ m, (_create_ad_user_ldap emp p env).1 = .raised m →
        (_onboarding_activity_create_ad_done emp st p env).1.ad_sync_status = "error") := by
  unfold _onboarding_activity_create_ad_done
  rcases hv : _validate_employee_for_ad emp with _ | msg
  · rcases hc : (_create_ad_user_ldap emp p env).1 with ⟨u, pwd⟩ | e | m <;>
      simp [hv, hc, _update_employee_after_ad_creation]
  · simp [hv]

/-- C1 amended witness: the validation-failure attempt leaves the state
untouched, and a bind failure sets the status to `error`. -/
theorem C1_amended_failure_reporting_witness :
    (_onboarding_activity_create_ad_done ⟨"John Doe", none, none⟩ ⟨none, "pending"⟩
      pC envOK).1 = ⟨none, "pending"⟩ ∧
    (_onboarding_activity_create_ad_done empC ⟨none, "pending"⟩ pC
      { envOK with bindOk := false }).1.ad_sync_status = "error" := by
  constructor
  · exact (C1_amended_failure_reporting ⟨"John Doe", none, none⟩ ⟨none, "pending"⟩
      pC envOK).2.1 (by decide)
  · exact (C1_amended_failure_reporting empC ⟨none, "pending"⟩ pC
      { envOK with bindOk := false }).2.2.1 (by decide)
      (.exceptionMsg "LDAPException") (by decide)

end EmployeeOnboarding
